import Mathlib

/-!
Verification of the RouteWise routing/cost pipeline (`src/app.py`).

Real-valued quantities of the Python program (floats) are modelled as real
numbers; Python's `round(x, n)` (round-half-to-even) is modelled by `pyRound`;
Python's `int(x)` truncation is modelled by `pyInt`; code that can raise
`ZeroDivisionError` is modelled in the `Except` monad; external HTTP calls are
modelled by oracle functions passed as parameters, with `none` standing for
every failure mode (missing key, non-success status, timeout, malformed
response, raised exception).
-/

/-- Round-half-to-even of a real number to an integer (the rounding used by
Python's builtin `round`). -/
noncomputable def rhe (x : ℝ) : ℤ :=
  let n := ⌊x⌋
  if x - n < 1/2 then n
  else if 1/2 < x - (n : ℝ) then n + 1
  else if 2 ∣ n then n else n + 1

/-- Model of Python `round(x, nd)`: round half to even at `nd` decimal places. -/
noncomputable def pyRound (nd : ℕ) (x : ℝ) : ℝ :=
  (rhe (x * 10 ^ nd) : ℝ) / 10 ^ nd

/-- Model of Python `int(x)` on a float: truncation toward zero. -/
noncomputable def pyInt (x : ℝ) : ℤ :=
  if 0 ≤ x then ⌊x⌋ else -⌊-x⌋

/-- `rhe` is the identity on integers. -/
theorem rhe_intCast (n : ℤ) : rhe (n : ℝ) = n := by
  unfold rhe
  norm_num

/-- `pyRound` fixes any real that is an integer multiple of `10^-nd`. -/
theorem pyRound_eq_self (nd : ℕ) (n : ℤ) (x : ℝ) (hx : x * 10 ^ nd = (n : ℝ)) :
    pyRound nd x = x := by
  unfold pyRound
  rw [hx, rhe_intCast, ← hx]
  field_simp

/-- Model of `math.atan2`. -/
noncomputable def atan2 (y x : ℝ) : ℝ :=
  if 0 < x then Real.arctan (y / x)
  else if x < 0 then
    (if 0 ≤ y then Real.arctan (y / x) + Real.pi else Real.arctan (y / x) - Real.pi)
  else if 0 < y then Real.pi / 2
  else if y < 0 then -(Real.pi / 2)
  else 0

/-- Model of `math.radians`. -/
noncomputable def radians (x : ℝ) : ℝ := x * Real.pi / 180

/-- `RoutingAgent._calculate_haversine_distance` (src/app.py lines 526-541):
great-circle distance via the haversine formula, Earth radius 6371 km.
The identical inline formula is also the body of
`TollService._estimate_tolls_by_distance` (lines 388-399). -/
noncomputable def haversineDistance (coord1 coord2 : ℝ × ℝ) : ℝ :=
  let R : ℝ := 6371
  let lat1 := radians coord1.1
  let lon1 := radians coord1.2
  let lat2 := radians coord2.1
  let lon2 := radians coord2.2
  let dlat := lat2 - lat1
  let dlon := lon2 - lon1
  let a := Real.sin (dlat / 2) ^ 2 +
    Real.cos lat1 * Real.cos lat2 * Real.sin (dlon / 2) ^ 2
  let c := 2 * atan2 (Real.sqrt a) (Real.sqrt (1 - a))
  R * c

theorem atan2_nonneg {y x : ℝ} (hy : 0 ≤ y) (hx : 0 ≤ x) : 0 ≤ atan2 y x := by
  unfold atan2
  split_ifs with h1 h2 h3 h4 h5 <;>
    first
      | (have h := Real.arctan_strictMono.monotone (div_nonneg hy h1.le);
         rwa [Real.arctan_zero] at h)
      | positivity
      | linarith
      | exact le_refl 0

theorem haversine_nonneg (c1 c2 : ℝ × ℝ) : 0 ≤ haversineDistance c1 c2 := by
  have h : ∀ a : ℝ, 0 ≤ 2 * atan2 (Real.sqrt a) (Real.sqrt (1 - a)) := by
    intro a
    have := atan2_nonneg (Real.sqrt_nonneg a) (Real.sqrt_nonneg (1 - a))
    linarith
  exact mul_nonneg (by norm_num) (h _)

theorem haversine_self (c : ℝ × ℝ) : haversineDistance c c = 0 := by
  unfold haversineDistance atan2
  simp [Real.sqrt_eq_zero']

/-- C6: for every pair of (latitude, longitude) inputs, the Distance Estimator
(`_calculate_haversine_distance`) is a total function and returns a
non-negative result. -/
theorem distance_estimator_nonneg (c1 c2 : ℝ × ℝ) : 0 ≤ haversineDistance c1 c2 :=
  haversine_nonneg c1 c2

/-- C7: the Distance Estimator is symmetric, `dist(A,B) = dist(B,A)`, and
`dist(A,A) = 0`. -/
theorem distance_estimator_symm_self (A B : ℝ × ℝ) :
    haversineDistance A B = haversineDistance B A ∧ haversineDistance A A = 0 := by
  refine ⟨?_, haversine_self A⟩
  have hsin : ∀ u v : ℝ, Real.sin ((u - v) / 2) ^ 2 = Real.sin ((v - u) / 2) ^ 2 := by
    intro u v
    rw [show (u - v) / 2 = -((v - u) / 2) by ring, Real.sin_neg]
    ring
  unfold haversineDistance
  dsimp only
  rw [hsin (radians A.1) (radians B.1), hsin (radians A.2) (radians B.2),
    mul_comm (Real.cos (radians A.1)) (Real.cos (radians B.1))]

/-! ## Toll Estimator (`TollService`, src/app.py lines 365-411) -/

/-- Result dictionary of `TollService._estimate_tolls_by_distance`. -/
structure TollInfo where
  valor_total : ℝ
  numero_pracas : ℤ
  valor_medio : ℝ
  estimado : Bool

/-- `TollService._estimate_tolls_by_distance` (lines 385-411).  The inline
haversine computation of the source (lines 390-399) is textually identical to
`_calculate_haversine_distance` and is shared here as `haversineDistance`.
`valor_pedagio_por_km` is computed by the source but never used. -/
noncomputable def estimate_tolls_by_distance (origem destino : ℝ × ℝ) : TollInfo :=
  let distancia := haversineDistance origem destino
  let valor_pedagio_por_km : ℝ := 0.15 * 0.4
  let numero_pedagogios : ℤ := max 1 (pyInt (distancia / 150))
  let valor_medio_pedagio : ℝ := 15.0
  { valor_total := pyRound 2 ((numero_pedagogios : ℝ) * valor_medio_pedagio)
    numero_pracas := numero_pedagogios
    valor_medio := valor_medio_pedagio
    estimado := true }

/-- `TollService.calculate_route_tolls` (lines 371-383): with no API key it
returns the distance-based estimate, and with an API key it also returns the
same distance-based estimate (the `try` body is the estimate itself). -/
noncomputable def calculate_route_tolls (api_key : String) (origem destino : ℝ × ℝ) :
    TollInfo :=
  if api_key = "" then estimate_tolls_by_distance origem destino
  else estimate_tolls_by_distance origem destino

theorem pyInt_of_nonneg {x : ℝ} (h : 0 ≤ x) : pyInt x = ⌊x⌋ := if_pos h

/-- C2: for every credential and every coordinate pair, the Toll Estimator
returns the pure distance-based estimate: plaza count
`max 1 ⌊distance/150⌋`, total `plaza_count * 15.0` (rounding to 2 decimals is
the identity on this integer amount), and `estimado = true`; the per-km rate
constant computed by the source does not contribute to the total. -/
theorem toll_estimator_spec (api_key : String) (o d : ℝ × ℝ) :
    calculate_route_tolls api_key o d = estimate_tolls_by_distance o d
    ∧ (calculate_route_tolls api_key o d).numero_pracas
        = max 1 ⌊haversineDistance o d / 150⌋
    ∧ (calculate_route_tolls api_key o d).valor_total
        = pyRound 2 (((max 1 ⌊haversineDistance o d / 150⌋ : ℤ) : ℝ) * 15)
    ∧ (calculate_route_tolls api_key o d).valor_total
        = ((max 1 ⌊haversineDistance o d / 150⌋ : ℤ) : ℝ) * 15
    ∧ (calculate_route_tolls api_key o d).estimado = true := by
  have hsvc : calculate_route_tolls api_key o d = estimate_tolls_by_distance o d := by
    unfold calculate_route_tolls
    split_ifs <;> rfl
  have hfloor : pyInt (haversineDistance o d / 150) = ⌊haversineDistance o d / 150⌋ :=
    pyInt_of_nonneg (div_nonneg (haversine_nonneg o d) (by norm_num))
  have hround : pyRound 2 (((max 1 ⌊haversineDistance o d / 150⌋ : ℤ) : ℝ) * 15)
      = ((max 1 ⌊haversineDistance o d / 150⌋ : ℤ) : ℝ) * 15 := by
    apply pyRound_eq_self 2 (1500 * max 1 ⌊haversineDistance o d / 150⌋)
    push_cast
    ring
  have h15 : (15.0 : ℝ) = 15 := by norm_num
  refine ⟨hsvc, ?_, ?_, ?_, ?_⟩ <;>
    simp only [hsvc, estimate_tolls_by_distance, hfloor, h15, hround]

/-! ## Data model and external routing service (src/app.py lines 31-45, 254-363) -/

abbrev Coord := ℝ × ℝ

/-- `FiscalDocument` (src/app.py lines 31-45), restricted to the fields read by
the routing/cost core (`produtos`, `prazo_entrega` and `restricoes` are only
used by the extraction and display layers). -/
structure FiscalDocument where
  tipo : String
  numero : String
  destinatario : String
  endereco_completo : String
  cidade : String
  uf : String
  cep : String
  valor_total : ℝ
  peso_total : ℝ
  coordenadas : Option Coord

/-- A successfully parsed directions response: `routes[0].summary` of a
200-response (`distance` in meters, `duration` in seconds) plus the optional
geometry. -/
structure RouteSummaryRaw where
  distance : ℝ
  duration : ℝ
  geometry : Option String

/-- Oracle for the external directions endpoint.  `none` stands for every
failure mode of the call in `calculate_distance_time`: non-200 status, empty
`routes`, timeout, or a raised exception. -/
abbrev DirectionsNet := Coord → Coord → Option RouteSummaryRaw

/-- Oracle for the external optimization endpoint used by
`RouteService.calculate_optimized_route`.  `none` stands for any failure
(non-200 status, timeout, exception); `some b` is a 200-response whose JSON
body has truthiness `b` (`bool(response.json())` in Python). -/
abbrev OptimizeNet := Coord → List Coord → Option Bool

/-- Result dictionary of `RouteService.calculate_distance_time`. -/
structure RotaInfo where
  distancia_km : ℝ
  tempo_horas : ℝ
  geometria : Option String

/-- `RouteService.calculate_distance_time` (lines 319-363): with no API key the
call returns `None`; otherwise a successful response yields distance (km) and
duration (hours) both rounded to 2 decimals, and any failure yields `None`. -/
noncomputable def calculate_distance_time (api_key : String) (net : DirectionsNet)
    (origem destino : Coord) : Option RotaInfo :=
  if api_key = "" then none
  else
    match net origem destino with
    | none => none
    | some s =>
      some { distancia_km := pyRound 2 (s.distance / 1000)
             tempo_horas := pyRound 2 (s.duration / 3600)
             geometria := s.geometry }

/-- `RouteService.calculate_optimized_route` (lines 261-317): with no API key
it returns `None`, otherwise it returns the JSON of a 200-response (modelled by
its truthiness) and `None` on any failure. -/
def service_optimize_route (api_key : String) (net : OptimizeNet) (origem : Coord)
    (destinos : List Coord) : Option Bool :=
  if api_key = "" then none else net origem destinos

/-! ## Delivery Grouper (`RoutingAgent.calculate_optimized_route`, lines 436-451) -/

/-- One value of the insertion-ordered dict `entregas_por_local`. -/
structure LocalInfo where
  documentos : List FiscalDocument
  coordenadas : Coord

/-- The dict key `f"{doc.cidade}, {doc.uf}"`. -/
def localKey (doc : FiscalDocument) : String := doc.cidade ++ ", " ++ doc.uf

/-- One step of the dict update of lines 443-448: if the key is new, create the
entry seated at this document's coordinates; in all cases append the document
to its entry's list.  Insertion order of keys is preserved. -/
def insertDoc (acc : List (String × LocalInfo)) (doc : FiscalDocument) (c : Coord) :
    List (String × LocalInfo) :=
  match acc with
  | [] => [(localKey doc, { documentos := [doc], coordenadas := c })]
  | (k, info) :: rest =>
    if k = localKey doc then
      (k, { info with documentos := info.documentos ++ [doc] }) :: rest
    else
      (k, info) :: insertDoc rest doc c

/-- The dict `entregas_por_local` built by the loop of lines 440-448: documents
without coordinates are skipped. -/
def entregas_por_local (documentos : List FiscalDocument) : List (String × LocalInfo) :=
  documentos.foldl (fun acc doc =>
    match doc.coordenadas with
    | none => acc
    | some c => insertDoc acc doc c) []

/-- The deduplicated list `coordenadas_destinos` of lines 438-451 (used only
for the batch optimization request). -/
noncomputable def coordenadas_destinos (documentos : List FiscalDocument) : List Coord :=
  documentos.foldl (fun acc doc =>
    match doc.coordenadas with
    | none => acc
    | some c => if c ∈ acc then acc else acc ++ [c]) []

/-! ## Route Sequencer (`RoutingAgent.calculate_optimized_route`, lines 423-524) -/

/-- The per-leg metrics of lines 474-484: the directions-service result when it
is available, otherwise the haversine fallback with an assumed average speed of
60 km/h.  This is a total function: every failure of the external call is
already resolved to `none` by `calculate_distance_time`. -/
noncomputable def legMetricsPair (api_key : String) (net : DirectionsNet)
    (ponto destino : Coord) : ℝ × ℝ :=
  match calculate_distance_time api_key net ponto destino with
  | some rota_info => (rota_info.distancia_km, rota_info.tempo_horas)
  | none => (haversineDistance ponto destino, haversineDistance ponto destino / 60)

/-- One leg dictionary (`rota`, lines 490-502). -/
structure Rota where
  sequencia : ℕ
  origem : String
  destino : String
  coordenadas_destino : Coord
  distancia_km : ℝ
  tempo_estimado_horas : ℝ
  entregas : ℕ
  documentos : List String
  valor_total_entregas : ℝ
  peso_total_entregas : ℝ
  pedagios : TollInfo

/-- The `resumo` dictionary (lines 515-523). -/
structure Resumo where
  total_cidades : ℕ
  total_entregas : ℕ
  distancia_total_km : ℝ
  tempo_total_horas : ℝ
  tempo_total_dias : ℝ
  custo_pedagogios_total : ℝ
  api_utilizada : Bool

/-- The dictionary returned by `RoutingAgent.calculate_optimized_route`. -/
structure RouteResult where
  rotas : List Rota
  origem_coordenadas : Coord
  resumo : Resumo

/-- The loop of lines 459-510: walk the ordered groups carrying the index, the
previous point and the previous label; returns the leg list together with the
unrounded accumulators (total distance, total time, total toll). -/
noncomputable def buildLegs (route_key toll_key : String) (net : DirectionsNet) :
    List (String × LocalInfo) → ℕ → Coord → String → List Rota × ℝ × ℝ × ℝ
  | [], _, _, _ => ([], 0, 0, 0)
  | (loc, info) :: rest, i, ponto_anterior, nome_anterior =>
    let m := legMetricsPair route_key net ponto_anterior info.coordenadas
    let pedagogios_info := calculate_route_tolls toll_key ponto_anterior info.coordenadas
    let rota : Rota :=
      { sequencia := i + 1
        origem := nome_anterior
        destino := loc
        coordenadas_destino := info.coordenadas
        distancia_km := pyRound 2 m.1
        tempo_estimado_horas := pyRound 2 m.2
        entregas := info.documentos.length
        documentos := info.documentos.map (fun d => d.numero)
        valor_total_entregas := (info.documentos.map (fun d => d.valor_total)).sum
        peso_total_entregas := (info.documentos.map (fun d => d.peso_total)).sum
        pedagios := pedagogios_info }
    let r := buildLegs route_key toll_key net rest (i + 1) info.coordenadas loc
    (rota :: r.1, m.1 + r.2.1, m.2 + r.2.2.1, pedagogios_info.valor_total + r.2.2.2)

/-- `RoutingAgent.calculate_optimized_route` (lines 423-524).  The geocoder and
the two external endpoints are passed as oracles; a failed origin geocoding
yields `none` (the source shows an error and returns `None`). -/
noncomputable def calculate_optimized_route (geocode : String → Option Coord)
    (openroute_key tollguru_key : String) (dirNet : DirectionsNet) (optNet : OptimizeNet)
    (documentos : List FiscalDocument) (endereco_origem : String) : Option RouteResult :=
  match geocode endereco_origem with
  | none => none
  | some origem_coords =>
    let entregas := entregas_por_local documentos
    let rota_otimizada_api := service_optimize_route openroute_key optNet origem_coords
      (coordenadas_destinos documentos)
    let r := buildLegs openroute_key tollguru_key dirNet entregas 0 origem_coords
      endereco_origem
    some
      { rotas := r.1
        origem_coordenadas := origem_coords
        resumo :=
          { total_cidades := entregas.length
            total_entregas := (entregas.map (fun kv => kv.2.documentos.length)).sum
            distancia_total_km := pyRound 2 r.2.1
            tempo_total_horas := pyRound 2 r.2.2.1
            tempo_total_dias := pyRound 1 (r.2.2.1 / 8)
            custo_pedagogios_total := pyRound 2 r.2.2.2
            api_utilizada := rota_otimizada_api.getD false } }

/-! ## Cost Estimator (`CostCalculationAgent`, src/app.py lines 543-635) -/

/-- The `detalhamento_custos` dictionary (lines 583-592). -/
structure Detalhamento where
  combustivel : ℝ
  pedagio : ℝ
  desgaste_veiculo : ℝ
  motorista : ℝ
  seguro : ℝ
  taxa_entregas : ℝ
  alimentacao : ℝ
  pernoite : ℝ

/-- The `parametros_utilizados` dictionary (lines 593-598). -/
structure Parametros where
  consumo_medio_km_l : ℝ
  preco_combustivel_litro : ℝ
  valor_hora_motorista : ℝ
  litros_necessarios : ℝ

/-- The `resumo_custos` dictionary (lines 599-605). -/
structure ResumoCustos where
  custo_total : ℝ
  custo_por_entrega : ℝ
  custo_por_km : ℝ
  valor_mercadorias : ℝ
  percentual_custo : ℝ

/-- The dictionary returned by `calculate_route_costs`. -/
structure CostReport where
  detalhamento_custos : Detalhamento
  parametros_utilizados : Parametros
  resumo_custos : ResumoCustos
  recomendacoes : List String

/-- `CostCalculationAgent._generate_recommendations` (lines 609-635). -/
noncomputable def generate_recommendations (custo_total valor_mercadorias
    percentual_custo : ℝ) (rota_info : RouteResult) : List String :=
  let l1 : List String :=
    if 15 < percentual_custo then
      ["⚠️ Custo de transporte elevado (>15% do valor das mercadorias)",
       "💡 Considere consolidar mais entregas na mesma rota"]
    else if percentual_custo < 5 then
      ["✅ Excelente eficiência de custos (<5% do valor das mercadorias)"]
    else
      ["✅ Custos dentro da média esperada (5-15%)"]
  let l2 : List String :=
    if 3 < rota_info.resumo.tempo_total_dias then
      ["⏰ Rota longa (>3 dias) - avalie logística de pernoite"]
    else []
  let l3 : List String :=
    if 5000 < custo_total then
      ["💡 Avalie a possibilidade de terceirização do transporte"]
    else []
  let pedagogios_total := rota_info.resumo.custo_pedagogios_total
  let l4 : List String :=
    if custo_total * 0.2 < pedagogios_total then
      ["🛣️ Custo de pedágios alto - considere rotas alternativas"]
    else []
  l1 ++ l2 ++ l3 ++ l4 ++
    ["📊 Monitore regularmente os custos de combustível",
     "🔧 Mantenha o veículo em bom estado para reduzir custos"]

/-- `CostCalculationAgent.calculate_route_costs` (lines 550-607).  The three
divisions of the source (by `consumo_medio` on line 559, by
`total_entregas` on line 576 and by `distancia_total_km` on line 577) raise an
uncaught `ZeroDivisionError` when the divisor is zero; this is modelled by
`Except.error`.  The division by `valor_total_mercadorias` is guarded by the
source itself (`if valor > 0 else 0`). -/
noncomputable def calculate_route_costs (rota_info : RouteResult)
    (consumo_medio preco_combustivel valor_hora_motorista : ℝ) :
    Except String CostReport :=
  let resumo_rota := rota_info.resumo
  if consumo_medio = 0 then .error "ZeroDivisionError" else
  let litros_necessarios := resumo_rota.distancia_total_km / consumo_medio
  let custo_combustivel := litros_necessarios * preco_combustivel
  let custo_pedagio := resumo_rota.custo_pedagogios_total
  let custo_desgaste := resumo_rota.distancia_total_km * 0.45
  let custo_motorista := resumo_rota.tempo_total_horas * valor_hora_motorista
  let custo_seguro := resumo_rota.tempo_total_dias * 50.0
  let custo_entregas := (resumo_rota.total_entregas : ℝ) * 25.0
  let custo_alimentacao := resumo_rota.tempo_total_dias * 80.0
  let custo_pernoite := max 0 (resumo_rota.tempo_total_dias - 1) * 150.0
  let custo_total := custo_combustivel + custo_pedagio + custo_desgaste +
    custo_motorista + custo_seguro + custo_entregas +
    custo_alimentacao + custo_pernoite
  if resumo_rota.total_entregas = 0 then .error "ZeroDivisionError" else
  let custo_por_entrega := custo_total / (resumo_rota.total_entregas : ℝ)
  if resumo_rota.distancia_total_km = 0 then .error "ZeroDivisionError" else
  let custo_por_km := custo_total / resumo_rota.distancia_total_km
  let valor_total_mercadorias := (rota_info.rotas.map (fun r => r.valor_total_entregas)).sum
  let percentual_custo :=
    if 0 < valor_total_mercadorias then custo_total / valor_total_mercadorias * 100 else 0
  .ok
    { detalhamento_custos :=
        { combustivel := pyRound 2 custo_combustivel
          pedagio := pyRound 2 custo_pedagio
          desgaste_veiculo := pyRound 2 custo_desgaste
          motorista := pyRound 2 custo_motorista
          seguro := pyRound 2 custo_seguro
          taxa_entregas := pyRound 2 custo_entregas
          alimentacao := pyRound 2 custo_alimentacao
          pernoite := pyRound 2 custo_pernoite }
      parametros_utilizados :=
        { consumo_medio_km_l := consumo_medio
          preco_combustivel_litro := preco_combustivel
          valor_hora_motorista := valor_hora_motorista
          litros_necessarios := pyRound 2 litros_necessarios }
      resumo_custos :=
        { custo_total := pyRound 2 custo_total
          custo_por_entrega := pyRound 2 custo_por_entrega
          custo_por_km := pyRound 2 custo_por_km
          valor_mercadorias := pyRound 2 valor_total_mercadorias
          percentual_custo := pyRound 2 percentual_custo }
      recomendacoes := generate_recommendations custo_total valor_total_mercadorias
        percentual_custo rota_info }

/-! ## C5: Leg Metrics Provider fallback -/

/-- C5: whenever the external routing call fails or cannot be made (no
credential, or the oracle reports any failure), the per-leg metrics are the
haversine distance and that distance divided by 60 (hours).  `legMetricsPair`
is a total function, so no exception propagates. -/
theorem leg_metrics_fallback (api_key : String) (net : DirectionsNet) (p d : Coord)
    (h : api_key = "" ∨ net p d = none) :
    legMetricsPair api_key net p d
      = (haversineDistance p d, haversineDistance p d / 60) := by
  unfold legMetricsPair calculate_distance_time
  rcases h with h | h
  · rw [if_pos h]
  · by_cases hk : api_key = ""
    · rw [if_pos hk]
    · rw [if_neg hk, h]

/-- Witness for C5 at a concrete input (no credential configured). -/
theorem leg_metrics_fallback_witness :
    (("" : String) = "" ∨ (fun _ _ => none : DirectionsNet) (0, 0) (1, 1) = none)
    ∧ legMetricsPair "" (fun _ _ => none) (0, 1) (2, 3)
        = (haversineDistance (0, 1) (2, 3), haversineDistance (0, 1) (2, 3) / 60) :=
  ⟨Or.inl rfl, leg_metrics_fallback "" (fun _ _ => none) (0, 1) (2, 3) (Or.inl rfl)⟩

/-! ## Cost Estimator: normal form of a successful call -/

/-- The unrounded total cost (`custo_total`, lines 572-574): the sum of the
eight unrounded category costs. -/
noncomputable def custoTotalOf (info : RouteResult) (c p h : ℝ) : ℝ :=
  info.resumo.distancia_total_km / c * p + info.resumo.custo_pedagogios_total +
    info.resumo.distancia_total_km * 0.45 + info.resumo.tempo_total_horas * h +
    info.resumo.tempo_total_dias * 50.0 + (info.resumo.total_entregas : ℝ) * 25.0 +
    info.resumo.tempo_total_dias * 80.0 + max 0 (info.resumo.tempo_total_dias - 1) * 150.0

/-- `valor_total_mercadorias` (line 579). -/
noncomputable def valorMercadoriasOf (info : RouteResult) : ℝ :=
  (info.rotas.map (fun r => r.valor_total_entregas)).sum

/-- `percentual_custo` (line 580). -/
noncomputable def percentualOf (info : RouteResult) (c p h : ℝ) : ℝ :=
  if 0 < valorMercadoriasOf info then custoTotalOf info c p h / valorMercadoriasOf info * 100
  else 0

/-- A successful `calculate_route_costs` call, written out field by field. -/
theorem calculate_route_costs_ok (info : RouteResult) (c p h : ℝ)
    (hc : c ≠ 0) (he : info.resumo.total_entregas ≠ 0)
    (hd : info.resumo.distancia_total_km ≠ 0) :
    calculate_route_costs info c p h = .ok
      { detalhamento_custos :=
          { combustivel := pyRound 2 (info.resumo.distancia_total_km / c * p)
            pedagio := pyRound 2 info.resumo.custo_pedagogios_total
            desgaste_veiculo := pyRound 2 (info.resumo.distancia_total_km * 0.45)
            motorista := pyRound 2 (info.resumo.tempo_total_horas * h)
            seguro := pyRound 2 (info.resumo.tempo_total_dias * 50.0)
            taxa_entregas := pyRound 2 ((info.resumo.total_entregas : ℝ) * 25.0)
            alimentacao := pyRound 2 (info.resumo.tempo_total_dias * 80.0)
            pernoite := pyRound 2 (max 0 (info.resumo.tempo_total_dias - 1) * 150.0) }
        parametros_utilizados :=
          { consumo_medio_km_l := c
            preco_combustivel_litro := p
            valor_hora_motorista := h
            litros_necessarios := pyRound 2 (info.resumo.distancia_total_km / c) }
        resumo_custos :=
          { custo_total := pyRound 2 (custoTotalOf info c p h)
            custo_por_entrega :=
              pyRound 2 (custoTotalOf info c p h / (info.resumo.total_entregas : ℝ))
            custo_por_km :=
              pyRound 2 (custoTotalOf info c p h / info.resumo.distancia_total_km)
            valor_mercadorias := pyRound 2 (valorMercadoriasOf info)
            percentual_custo := pyRound 2 (percentualOf info c p h) }
        recomendacoes := generate_recommendations (custoTotalOf info c p h)
          (valorMercadoriasOf info) (percentualOf info c p h) info } := by
  unfold calculate_route_costs custoTotalOf valorMercadoriasOf percentualOf
  rw [if_neg hc, if_neg he, if_neg hd]
  rfl

/-! ## C1: total cost versus the displayed category costs -/

/-- C1 (amended): for every trip summary and every valid parameter set for
which the cost call succeeds, the returned `custo_total` is the 2-decimal
rounding of the sum of the eight *unrounded* category costs, and each returned
category is the 2-decimal rounding of its documented formula.  (The returned
total need not equal the sum of the eight returned, individually rounded,
categories; see the counterexample.) -/
theorem cost_total_rounds_unrounded_sum (info : RouteResult) (c p h : ℝ)
    (hc : 0 < c) (hp : 0 < p) (hh : 0 < h)
    (he : info.resumo.total_entregas ≠ 0) (hd : info.resumo.distancia_total_km ≠ 0) :
    (calculate_route_costs info c p h).toOption.map (fun rep =>
        (rep.resumo_custos.custo_total,
         rep.detalhamento_custos.combustivel,
         rep.detalhamento_custos.pedagio,
         rep.detalhamento_custos.desgaste_veiculo,
         rep.detalhamento_custos.motorista,
         rep.detalhamento_custos.seguro,
         rep.detalhamento_custos.taxa_entregas,
         rep.detalhamento_custos.alimentacao,
         rep.detalhamento_custos.pernoite))
      = some
        (pyRound 2 (info.resumo.distancia_total_km / c * p +
           info.resumo.custo_pedagogios_total + info.resumo.distancia_total_km * 0.45 +
           info.resumo.tempo_total_horas * h + info.resumo.tempo_total_dias * 50.0 +
           (info.resumo.total_entregas : ℝ) * 25.0 + info.resumo.tempo_total_dias * 80.0 +
           max 0 (info.resumo.tempo_total_dias - 1) * 150.0),
         pyRound 2 (info.resumo.distancia_total_km / c * p),
         pyRound 2 info.resumo.custo_pedagogios_total,
         pyRound 2 (info.resumo.distancia_total_km * 0.45),
         pyRound 2 (info.resumo.tempo_total_horas * h),
         pyRound 2 (info.resumo.tempo_total_dias * 50.0),
         pyRound 2 ((info.resumo.total_entregas : ℝ) * 25.0),
         pyRound 2 (info.resumo.tempo_total_dias * 80.0),
         pyRound 2 (max 0 (info.resumo.tempo_total_dias - 1) * 150.0)) := by
  rw [calculate_route_costs_ok info c p h hc.ne' he hd]
  rfl

/-- A hand-built trip summary on which the returned total differs from the sum
of the returned categories: distance 0.016 km, one delivery, all other totals
zero, parameters (1, 1, 15). -/
noncomputable def c1Info : RouteResult :=
  { rotas := []
    origem_coordenadas := (0, 0)
    resumo :=
      { total_cidades := 1
        total_entregas := 1
        distancia_total_km := 0.016
        tempo_total_horas := 0
        tempo_total_dias := 0
        custo_pedagogios_total := 0
        api_utilizada := false } }

/-- Counterexample to C1 as stated: on `c1Info` with parameters
(consumption 1 km/l, fuel price 1, hourly rate 15) the Cost Estimator returns
`custo_total = 25.02` (rounding of the unrounded sum 25.0232) while the eight
returned category costs sum to `0.02 + 0 + 0.01 + 0 + 0 + 25 + 0 + 0 = 25.03`. -/
theorem cost_total_cex :
    ((calculate_route_costs c1Info 1 1 15).toOption.map (fun rep =>
        (rep.resumo_custos.custo_total,
         rep.detalhamento_custos.combustivel + rep.detalhamento_custos.pedagio +
           rep.detalhamento_custos.desgaste_veiculo + rep.detalhamento_custos.motorista +
           rep.detalhamento_custos.seguro + rep.detalhamento_custos.taxa_entregas +
           rep.detalhamento_custos.alimentacao + rep.detalhamento_custos.pernoite))
      = some (25.02, 25.03))
    ∧ (25.02 : ℝ) ≠ 25.03 := by
  constructor
  · rw [calculate_route_costs_ok c1Info 1 1 15 (by norm_num)
      (by norm_num [c1Info]) (by norm_num [c1Info])]
    have hmax : max (0 : ℝ) (0 - 1) = 0 := by
      rw [max_eq_left]
      norm_num
    simp only [Except.toOption, Option.map, c1Info, custoTotalOf, hmax]
    norm_num [pyRound, rhe]
  · norm_num

/-- Witness for the amended C1 theorem at the concrete summary `c1Info` with
parameters (1, 1, 15). -/
theorem cost_total_rounds_unrounded_sum_witness :
    ((0 : ℝ) < 1 ∧ (0 : ℝ) < 15 ∧ c1Info.resumo.total_entregas ≠ 0
      ∧ c1Info.resumo.distancia_total_km ≠ 0)
    ∧ (calculate_route_costs c1Info 1 1 15).toOption.map (fun rep =>
        (rep.resumo_custos.custo_total,
         rep.detalhamento_custos.combustivel,
         rep.detalhamento_custos.pedagio,
         rep.detalhamento_custos.desgaste_veiculo,
         rep.detalhamento_custos.motorista,
         rep.detalhamento_custos.seguro,
         rep.detalhamento_custos.taxa_entregas,
         rep.detalhamento_custos.alimentacao,
         rep.detalhamento_custos.pernoite))
      = some
        (pyRound 2 (c1Info.resumo.distancia_total_km / 1 * 1 +
           c1Info.resumo.custo_pedagogios_total + c1Info.resumo.distancia_total_km * 0.45 +
           c1Info.resumo.tempo_total_horas * 15 + c1Info.resumo.tempo_total_dias * 50.0 +
           (c1Info.resumo.total_entregas : ℝ) * 25.0 + c1Info.resumo.tempo_total_dias * 80.0 +
           max 0 (c1Info.resumo.tempo_total_dias - 1) * 150.0),
         pyRound 2 (c1Info.resumo.distancia_total_km / 1 * 1),
         pyRound 2 c1Info.resumo.custo_pedagogios_total,
         pyRound 2 (c1Info.resumo.distancia_total_km * 0.45),
         pyRound 2 (c1Info.resumo.tempo_total_horas * 15),
         pyRound 2 (c1Info.resumo.tempo_total_dias * 50.0),
         pyRound 2 ((c1Info.resumo.total_entregas : ℝ) * 25.0),
         pyRound 2 (c1Info.resumo.tempo_total_dias * 80.0),
         pyRound 2 (max 0 (c1Info.resumo.tempo_total_dias - 1) * 150.0)) :=
  ⟨⟨by norm_num, by norm_num, by norm_num [c1Info], by norm_num [c1Info]⟩,
   cost_total_rounds_unrounded_sum c1Info 1 1 15 (by norm_num) (by norm_num)
     (by norm_num) (by norm_num [c1Info]) (by norm_num [c1Info])⟩

/-! ## C8: division by zero in the cost derivation -/

/-- C8: with valid parameters, a trip summary with zero routed deliveries or
zero total distance makes the Cost Estimator fault at its division (an
uncaught `ZeroDivisionError` in the source, lines 576-577), i.e. the call
reports an error rather than returning a numeric report. -/
theorem cost_estimator_divzero (info : RouteResult) (c p h : ℝ) (hc : 0 < c)
    (hz : info.resumo.total_entregas = 0 ∨ info.resumo.distancia_total_km = 0) :
    calculate_route_costs info c p h = .error "ZeroDivisionError" := by
  unfold calculate_route_costs
  rw [if_neg hc.ne']
  rcases hz with hz | hz
  · rw [if_pos hz]
  · by_cases he : info.resumo.total_entregas = 0
    · rw [if_pos he]
    · rw [if_neg he, if_pos hz]

/-- An empty routing result: no deliveries, no distance. -/
noncomputable def c8Info : RouteResult :=
  { rotas := []
    origem_coordenadas := (0, 0)
    resumo :=
      { total_cidades := 0
        total_entregas := 0
        distancia_total_km := 0
        tempo_total_horas := 0
        tempo_total_dias := 0
        custo_pedagogios_total := 0
        api_utilizada := false } }

/-- Witness for C8: the zero-delivery summary makes the cost call error out. -/
theorem cost_estimator_divzero_witness :
    ((0 : ℝ) < 3.5 ∧ c8Info.resumo.total_entregas = 0)
    ∧ calculate_route_costs c8Info 3.5 6.20 15 = .error "ZeroDivisionError" :=
  ⟨⟨by norm_num, rfl⟩,
   cost_estimator_divzero c8Info 3.5 6.20 15 (by norm_num) (Or.inl rfl)⟩

/-! ## C4: first-seen order of the delivery groups -/

/-- First-seen order of the (city, region) keys of the records that carry
coordinates — the order promised by the specification for the Delivery
Grouper's output. -/
def firstSeenKeys (documentos : List FiscalDocument) : List String :=
  documentos.foldl (fun acc doc =>
    match doc.coordenadas with
    | none => acc
    | some _ => if localKey doc ∈ acc then acc else acc ++ [localKey doc]) []

theorem insertDoc_keys (acc : List (String × LocalInfo)) (doc : FiscalDocument)
    (c : Coord) :
    (insertDoc acc doc c).map Prod.fst =
      if localKey doc ∈ acc.map Prod.fst then acc.map Prod.fst
      else acc.map Prod.fst ++ [localKey doc] := by
  induction acc with
  | nil => simp [insertDoc]
  | cons kv rest ih =>
    obtain ⟨k, info⟩ := kv
    by_cases hk : k = localKey doc
    · simp [insertDoc, hk]
    · simp only [insertDoc, if_neg hk, List.map_cons, List.mem_cons, ih]
      have hne : ¬ localKey doc = k := fun h => hk h.symm
      by_cases hmem : localKey doc ∈ rest.map Prod.fst
      · simp [hmem, hne]
      · simp [hmem, hne]

theorem entregas_por_local_keys (documentos : List FiscalDocument) :
    (entregas_por_local documentos).map Prod.fst = firstSeenKeys documentos := by
  unfold entregas_por_local firstSeenKeys
  suffices h : ∀ acc : List (String × LocalInfo),
      (documentos.foldl (fun acc doc =>
        match doc.coordenadas with
        | none => acc
        | some c => insertDoc acc doc c) acc).map Prod.fst =
      documentos.foldl (fun acc doc =>
        match doc.coordenadas with
        | none => acc
        | some _ => if localKey doc ∈ acc then acc else acc ++ [localKey doc])
        (acc.map Prod.fst) by
    exact h []
  induction documentos with
  | nil => intro acc; rfl
  | cons d rest ih =>
    intro acc
    cases hc : d.coordenadas with
    | none => simp only [List.foldl_cons, hc, ih]
    | some c =>
      simp only [List.foldl_cons, hc, ih, insertDoc_keys]

/-- Every document stored in a delivery group carries coordinates. -/
theorem entregas_por_local_coords (documentos : List FiscalDocument) :
    ∀ kv ∈ entregas_por_local documentos, ∀ d ∈ kv.2.documentos,
      d.coordenadas.isSome := by
  unfold entregas_por_local
  suffices h : ∀ acc : List (String × LocalInfo),
      (∀ kv ∈ acc, ∀ d ∈ kv.2.documentos, d.coordenadas.isSome) →
      ∀ kv ∈ (documentos.foldl (fun acc doc =>
        match doc.coordenadas with
        | none => acc
        | some c => insertDoc acc doc c) acc), ∀ d ∈ kv.2.documentos,
        d.coordenadas.isSome by
    exact h [] (by simp)
  have hins : ∀ (acc : List (String × LocalInfo)) (doc : FiscalDocument) (c : Coord),
      doc.coordenadas = some c →
      (∀ kv ∈ acc, ∀ d ∈ kv.2.documentos, d.coordenadas.isSome) →
      ∀ kv ∈ insertDoc acc doc c, ∀ d ∈ kv.2.documentos, d.coordenadas.isSome := by
    intro acc doc c hdoc
    induction acc with
    | nil =>
      intro _ kv hkv d hd
      simp only [insertDoc, List.mem_singleton] at hkv
      subst hkv
      simp only [List.mem_singleton] at hd
      subst hd
      simp [hdoc]
    | cons kv0 rest ih =>
      obtain ⟨k, info⟩ := kv0
      intro hacc kv hkv d hd
      by_cases hk : k = localKey doc
      · simp only [insertDoc, if_pos hk, List.mem_cons] at hkv
        rcases hkv with hkv | hkv
        · subst hkv
          simp only [List.mem_append, List.mem_singleton] at hd
          rcases hd with hd | hd
          · exact hacc (k, info) (by simp) d hd
          · subst hd
            simp [hdoc]
        · exact hacc kv (List.mem_cons_of_mem _ hkv) d hd
      · simp only [insertDoc, if_neg hk, List.mem_cons] at hkv
        rcases hkv with hkv | hkv
        · subst hkv
          exact hacc (k, info) (by simp) d hd
        · exact ih (fun kv2 hkv2 => hacc kv2 (List.mem_cons_of_mem _ hkv2)) kv hkv d hd
  induction documentos with
  | nil => intro acc hacc; exact hacc
  | cons d0 rest ih =>
    intro acc hacc
    cases hc : d0.coordenadas with
    | none => simp only [List.foldl_cons, hc]; exact ih acc hacc
    | some c =>
      simp only [List.foldl_cons, hc]
      exact ih (insertDoc acc d0 c) (hins acc d0 c hc hacc)

theorem buildLegs_destino (rk tk : String) (net : DirectionsNet) :
    ∀ (gs : List (String × LocalInfo)) (i : ℕ) (p : Coord) (n : String),
      (buildLegs rk tk net gs i p n).1.map (fun r => r.destino) = gs.map Prod.fst := by
  intro gs
  induction gs with
  | nil => intro i p n; rfl
  | cons kv rest ih =>
    obtain ⟨loc, info⟩ := kv
    intro i p n
    simp only [buildLegs, List.map_cons, List.map]
    exact congrArg (loc :: ·) (ih (i + 1) info.coordenadas loc)

theorem buildLegs_documentos (rk tk : String) (net : DirectionsNet) :
    ∀ (gs : List (String × LocalInfo)) (i : ℕ) (p : Coord) (n : String),
      (buildLegs rk tk net gs i p n).1.map (fun r => r.documentos)
        = gs.map (fun kv => kv.2.documentos.map (fun d => d.numero)) := by
  intro gs
  induction gs with
  | nil => intro i p n; rfl
  | cons kv rest ih =>
    obtain ⟨loc, info⟩ := kv
    intro i p n
    simp only [buildLegs, List.map_cons, List.map]
    exact congrArg _ (ih (i + 1) info.coordenadas loc)

/-- C4: the sequencer's legs appear in strictly first-seen order of the
(city, region) keys of the records having coordinates; this order does not
depend on the external oracles (directions or optimization) nor on the
configured keys; each leg's documents are exactly its group's documents, and
every grouped document carries coordinates (records lacking coordinates are in
no group and hence in no leg). -/
theorem sequencer_first_seen_order (geocode : String → Option Coord)
    (rk tk rk' tk' : String) (dn dn' : DirectionsNet) (onet onet' : OptimizeNet)
    (docs : List FiscalDocument) (addr : String) (oc : Coord)
    (hg : geocode addr = some oc) :
    ((calculate_optimized_route geocode rk tk dn onet docs addr).map
        (fun r => r.rotas.map (fun rt => rt.destino)) = some (firstSeenKeys docs))
    ∧ ((calculate_optimized_route geocode rk tk dn onet docs addr).map
        (fun r => r.rotas.map (fun rt => rt.destino))
      = (calculate_optimized_route geocode rk' tk' dn' onet' docs addr).map
        (fun r => r.rotas.map (fun rt => rt.destino)))
    ∧ ((calculate_optimized_route geocode rk tk dn onet docs addr).map
        (fun r => r.rotas.map (fun rt => rt.documentos))
      = some ((entregas_por_local docs).map
          (fun kv => kv.2.documentos.map (fun d => d.numero))))
    ∧ (∀ kv ∈ entregas_por_local docs, ∀ d ∈ kv.2.documentos,
        d.coordenadas.isSome) := by
  unfold calculate_optimized_route
  rw [hg]
  simp only [Option.map_some']
  refine ⟨?_, ?_, ?_, entregas_por_local_coords docs⟩
  · rw [buildLegs_destino, entregas_por_local_keys]
  · rw [buildLegs_destino, buildLegs_destino]
  · rw [buildLegs_documentos]

/-- Concrete batch for the sequencer witnesses: two documents for the same
destination, one for a second destination, and one without coordinates. -/
noncomputable def wDocs : List FiscalDocument :=
  [{ tipo := "NFE", numero := "1", destinatario := "A", endereco_completo := "Rua A"
     cidade := "Rio de Janeiro", uf := "RJ", cep := "20000"
     valor_total := 1000, peso_total := 10, coordenadas := some (-22.9, -43.17) },
   { tipo := "NFE", numero := "2", destinatario := "B", endereco_completo := "Rua B"
     cidade := "Sem Coordenada", uf := "XX", cep := "00000"
     valor_total := 500, peso_total := 5, coordenadas := none },
   { tipo := "NFE", numero := "3", destinatario := "C", endereco_completo := "Rua C"
     cidade := "Rio de Janeiro", uf := "RJ", cep := "20001"
     valor_total := 200, peso_total := 2, coordenadas := some (-22.9, -43.17) },
   { tipo := "CTE", numero := "4", destinatario := "D", endereco_completo := "Rua D"
     cidade := "Belo Horizonte", uf := "MG", cep := "30000"
     valor_total := 300, peso_total := 3, coordenadas := some (-19.92, -43.94) }]

/-- Concrete geocoder for the witnesses. -/
noncomputable def wGeo : String → Option Coord := fun _ => some (-23.55, -46.63)

/-- Witness for C4 at the concrete batch `wDocs` (comparing an empty-credential
run against a run whose oracles always succeed). -/
theorem sequencer_first_seen_order_witness :
    wGeo "Origem" = some (-23.55, -46.63)
    ∧ ((calculate_optimized_route wGeo "" "" (fun _ _ => none) (fun _ _ => none)
          wDocs "Origem").map (fun r => r.rotas.map (fun rt => rt.destino))
        = some (firstSeenKeys wDocs)) :=
  ⟨rfl,
   (sequencer_first_seen_order wGeo "" "" "k" "k"
     (fun _ _ => none) (fun _ _ => some ⟨100000, 3600, none⟩)
     (fun _ _ => none) (fun _ _ => some true)
     wDocs "Origem" (-23.55, -46.63) rfl).1⟩

/-! ## C10: the trip is an unbroken chain starting at the origin -/

/-- The chain invariant of the sequencer loop: starting from a previous label
and point, each successive leg carries the next 1-based sequence index, takes
the previous label as its origin label, draws its distance, time and toll from
the previous point and its own destination coordinates, and hands its own
label and coordinates to the next leg. -/
def chainedFrom (rk tk : String) (net : DirectionsNet) :
    String → Coord → ℕ → List Rota → Prop
  | _, _, _, [] => True
  | pname, pcoord, i, rota :: rest =>
    rota.sequencia = i + 1 ∧ rota.origem = pname
    ∧ rota.distancia_km = pyRound 2 (legMetricsPair rk net pcoord rota.coordenadas_destino).1
    ∧ rota.tempo_estimado_horas
        = pyRound 2 (legMetricsPair rk net pcoord rota.coordenadas_destino).2
    ∧ rota.pedagios = calculate_route_tolls tk pcoord rota.coordenadas_destino
    ∧ chainedFrom rk tk net rota.destino rota.coordenadas_destino (i + 1) rest

theorem buildLegs_chained (rk tk : String) (net : DirectionsNet) :
    ∀ (gs : List (String × LocalInfo)) (i : ℕ) (p : Coord) (n : String),
      chainedFrom rk tk net n p i (buildLegs rk tk net gs i p n).1 := by
  intro gs
  induction gs with
  | nil => intro i p n; trivial
  | cons kv rest ih =>
    obtain ⟨loc, info⟩ := kv
    intro i p n
    exact ⟨rfl, rfl, rfl, rfl, rfl, ih (i + 1) info.coordenadas loc⟩

theorem buildLegs_length (rk tk : String) (net : DirectionsNet) :
    ∀ (gs : List (String × LocalInfo)) (i : ℕ) (p : Coord) (n : String),
      (buildLegs rk tk net gs i p n).1.length = gs.length := by
  intro gs
  induction gs with
  | nil => intro i p n; rfl
  | cons kv rest ih =>
    obtain ⟨loc, info⟩ := kv
    intro i p n
    simp only [buildLegs, List.length_cons]
    exact congrArg Nat.succ (ih (i + 1) info.coordenadas loc)

theorem buildLegs_sequencia (rk tk : String) (net : DirectionsNet) :
    ∀ (gs : List (String × LocalInfo)) (i : ℕ) (p : Coord) (n : String),
      (buildLegs rk tk net gs i p n).1.map (fun r => r.sequencia)
        = List.range' (i + 1) gs.length := by
  intro gs
  induction gs with
  | nil => intro i p n; rfl
  | cons kv rest ih =>
    obtain ⟨loc, info⟩ := kv
    intro i p n
    simp only [buildLegs, List.map_cons, List.length_cons, List.range'_succ]
    exact congrArg _ (ih (i + 1) info.coordenadas loc)

/-- C10: every successful routing run yields legs carrying contiguous 1-based
sequence indices `1..n`, whose first origin label is the supplied origin label,
and which form an unbroken chain: each leg's origin label is the previous
leg's destination label and its distance, time and toll are computed from the
previous leg's destination coordinates (starting from the origin
coordinates). -/
theorem sequencer_chain (geocode : String → Option Coord) (rk tk : String)
    (dn : DirectionsNet) (onet : OptimizeNet) (docs : List FiscalDocument)
    (addr : String) (r : RouteResult)
    (hr : calculate_optimized_route geocode rk tk dn onet docs addr = some r) :
    r.rotas.map (fun rt => rt.sequencia) = List.range' 1 r.rotas.length
    ∧ chainedFrom rk tk dn addr r.origem_coordenadas 0 r.rotas := by
  unfold calculate_optimized_route at hr
  cases hgeo : geocode addr with
  | none => rw [hgeo] at hr; cases hr
  | some oc =>
    rw [hgeo] at hr
    injection hr with hr
    subst hr
    constructor
    · rw [buildLegs_sequencia, buildLegs_length]
    · exact buildLegs_chained rk tk dn (entregas_por_local docs) 0 oc addr

/-- The result of the credential-less run on `wDocs` (all external calls
degrade to the offline fallbacks); spelled out so that the run equation is
definitional. -/
noncomputable def wRunResult : RouteResult :=
  { rotas := (buildLegs "" "" (fun _ _ => none) (entregas_por_local wDocs) 0
      (-23.55, -46.63) "Origem").1
    origem_coordenadas := (-23.55, -46.63)
    resumo :=
      { total_cidades := (entregas_por_local wDocs).length
        total_entregas :=
          ((entregas_por_local wDocs).map (fun kv => kv.2.documentos.length)).sum
        distancia_total_km := pyRound 2 (buildLegs "" "" (fun _ _ => none)
          (entregas_por_local wDocs) 0 (-23.55, -46.63) "Origem").2.1
        tempo_total_horas := pyRound 2 (buildLegs "" "" (fun _ _ => none)
          (entregas_por_local wDocs) 0 (-23.55, -46.63) "Origem").2.2.1
        tempo_total_dias := pyRound 1 ((buildLegs "" "" (fun _ _ => none)
          (entregas_por_local wDocs) 0 (-23.55, -46.63) "Origem").2.2.1 / 8)
        custo_pedagogios_total := pyRound 2 (buildLegs "" "" (fun _ _ => none)
          (entregas_por_local wDocs) 0 (-23.55, -46.63) "Origem").2.2.2
        api_utilizada := false } }

theorem wRun_eq :
    calculate_optimized_route wGeo "" "" (fun _ _ => none) (fun _ _ => none)
      wDocs "Origem" = some wRunResult := rfl

/-- Witness for C10 at the concrete batch `wDocs`. -/
theorem sequencer_chain_witness :
    calculate_optimized_route wGeo "" "" (fun _ _ => none) (fun _ _ => none)
        wDocs "Origem" = some wRunResult
    ∧ (wRunResult.rotas.map (fun rt => rt.sequencia)
          = List.range' 1 wRunResult.rotas.length
       ∧ chainedFrom "" "" (fun _ _ => none) "Origem"
          wRunResult.origem_coordenadas 0 wRunResult.rotas) :=
  ⟨wRun_eq,
   sequencer_chain wGeo "" "" (fun _ _ => none) (fun _ _ => none) wDocs "Origem"
     wRunResult wRun_eq⟩

/-! ## C9: the "api used" flag -/

/-- C9 (amended): the `api_utilizada` flag of the trip summary is exactly the
truthiness of the batch optimization call's result (`bool(rota_otimizada_api)`,
line 522) — it does not depend on the per-leg directions oracle, so it does not
record whether the routing service supplied any leg's metrics. -/
theorem api_flag_from_optimization (geocode : String → Option Coord)
    (rk tk : String) (dn : DirectionsNet) (onet : OptimizeNet)
    (docs : List FiscalDocument) (addr : String) (oc : Coord)
    (hg : geocode addr = some oc) :
    (calculate_optimized_route geocode rk tk dn onet docs addr).map
        (fun r => r.resumo.api_utilizada)
      = some ((service_optimize_route rk onet oc (coordenadas_destinos docs)).getD
          false) := by
  unfold calculate_optimized_route
  rw [hg]
  rfl

/-- Counterexample to C9 as stated: with a configured key, an optimization
oracle that answers and a directions oracle that always fails, the flag is
`true` although the routing service supplied the metrics of no leg — every
leg's distance is the haversine fallback. -/
theorem api_flag_cex :
    ((calculate_optimized_route wGeo "k" "" (fun _ _ => none) (fun _ _ => some true)
        wDocs "Origem").map (fun r => r.resumo.api_utilizada) = some true)
    ∧ ((calculate_optimized_route wGeo "k" "" (fun _ _ => none) (fun _ _ => some true)
        wDocs "Origem").map (fun r => r.rotas.map (fun rt => rt.distancia_km))
      = some [pyRound 2 (haversineDistance (-23.55, -46.63) (-22.9, -43.17)),
              pyRound 2 (haversineDistance (-22.9, -43.17) (-19.92, -43.94))])
    ∧ calculate_distance_time "k" (fun _ _ => none) (-23.55, -46.63) (-22.9, -43.17)
        = none := by
  refine ⟨rfl, ?_, rfl⟩
  rfl

/-- Witness for the amended C9 theorem at the same concrete input. -/
theorem api_flag_witness :
    wGeo "Origem" = some (-23.55, -46.63)
    ∧ (calculate_optimized_route wGeo "k" "" (fun _ _ => none) (fun _ _ => some true)
        wDocs "Origem").map (fun r => r.resumo.api_utilizada)
      = some ((service_optimize_route "k" (fun _ _ => some true) (-23.55, -46.63)
          (coordenadas_destinos wDocs)).getD false) :=
  ⟨rfl,
   api_flag_from_optimization wGeo "k" "" (fun _ _ => none) (fun _ _ => some true)
     wDocs "Origem" (-23.55, -46.63) rfl⟩

/-! ## C3: insurance, meals and lodging all run off the rounded "days" figure -/

/-- C3 (amended): for every routing run whose cost call succeeds, the insurance
cost is `round2(total_time_days * 50)`, the meal cost is
`round2(total_time_days * 80)` and the lodging cost is
`round2(max 0 (total_time_days - 1) * 150)`, all driven by the same summary
field `tempo_total_dias`; but that field is the unrounded accumulated time
divided by 8 and rounded to **1 decimal** (line 520), not exactly
`total_time_hours / 8`. -/
theorem insurance_from_rounded_days (geocode : String → Option Coord)
    (rk tk : String) (dn : DirectionsNet) (onet : OptimizeNet)
    (docs : List FiscalDocument) (addr : String) (r : RouteResult)
    (hr : calculate_optimized_route geocode rk tk dn onet docs addr = some r)
    (c p h : ℝ) (hc : c ≠ 0) (he : r.resumo.total_entregas ≠ 0)
    (hd : r.resumo.distancia_total_km ≠ 0) :
    ((calculate_route_costs r c p h).toOption.map (fun rep =>
        (rep.detalhamento_custos.seguro, rep.detalhamento_custos.alimentacao,
         rep.detalhamento_custos.pernoite))
      = some (pyRound 2 (r.resumo.tempo_total_dias * 50.0),
              pyRound 2 (r.resumo.tempo_total_dias * 80.0),
              pyRound 2 (max 0 (r.resumo.tempo_total_dias - 1) * 150.0)))
    ∧ ∃ t : ℝ, r.resumo.tempo_total_horas = pyRound 2 t
        ∧ r.resumo.tempo_total_dias = pyRound 1 (t / 8) := by
  constructor
  · rw [calculate_route_costs_ok r c p h hc he hd]
    rfl
  · unfold calculate_optimized_route at hr
    cases hgeo : geocode addr with
    | none => rw [hgeo] at hr; cases hr
    | some oc =>
      rw [hgeo] at hr
      injection hr with hr
      subst hr
      exact ⟨(buildLegs rk tk dn (entregas_por_local docs) 0 oc addr).2.2.1, rfl, rfl⟩

/-- Geocoder, directions oracle and batch for the C3 scenario: the external
directions service answers 16000 m / 3600 s for every leg. -/
noncomputable def c3Geo : String → Option Coord := fun _ => some (0, 0)

/-- Directions oracle answering 16 km / 1 h for every pair. -/
noncomputable def c3Dir : DirectionsNet :=
  fun _ _ => some { distance := 16000, duration := 3600, geometry := none }

/-- A single delivery whose destination geocodes to the origin point. -/
noncomputable def c3Docs : List FiscalDocument :=
  [{ tipo := "NFE", numero := "7", destinatario := "E", endereco_completo := "Rua E"
     cidade := "Cidade", uf := "SP", cep := "01000"
     valor_total := 1000, peso_total := 10, coordenadas := some (0, 0) }]

/-- Counterexample to C3 as stated: the run on `c3Docs` has
`tempo_total_horas = 1` but `tempo_total_dias = 0.1`, which differs from
`total_time_hours / 8 = 0.125`; consequently the insurance cost is
`0.1 * 50 = 5`, not `(1/8) * 50 = 6.25`. -/
theorem insurance_days_cex :
    ((calculate_optimized_route c3Geo "k" "" c3Dir (fun _ _ => none) c3Docs
        "Origem").map (fun r => (r.resumo.tempo_total_horas, r.resumo.tempo_total_dias))
      = some (1, 0.1))
    ∧ (0.1 : ℝ) ≠ 1 / 8
    ∧ pyRound 2 ((0.1 : ℝ) * 50.0) = 5
    ∧ pyRound 2 ((1 / 8 : ℝ) * 50.0) = 6.25 := by
  have hrun : (calculate_optimized_route c3Geo "k" "" c3Dir (fun _ _ => none) c3Docs
      "Origem").map (fun r => (r.resumo.tempo_total_horas, r.resumo.tempo_total_dias))
      = some (pyRound 2 (pyRound 2 ((3600 : ℝ) / 3600) + 0),
              pyRound 1 ((pyRound 2 ((3600 : ℝ) / 3600) + 0) / 8)) := rfl
  have e1 : pyRound 2 ((3600 : ℝ) / 3600) = 1 := by unfold pyRound rhe; norm_num
  refine ⟨?_, by norm_num, ?_, ?_⟩
  · rw [hrun, e1]
    have e2 : pyRound 2 ((1 : ℝ) + 0) = 1 := by unfold pyRound rhe; norm_num
    have e3 : pyRound 1 (((1 : ℝ) + 0) / 8) = 0.1 := by unfold pyRound rhe; norm_num
    rw [e2, e3]
  · unfold pyRound rhe; norm_num
  · unfold pyRound rhe; norm_num

/-- The result of the C3 run, spelled out so that the run equation is
definitional. -/
noncomputable def c3Result : RouteResult :=
  { rotas := (buildLegs "k" "" c3Dir (entregas_por_local c3Docs) 0 (0, 0) "Origem").1
    origem_coordenadas := (0, 0)
    resumo :=
      { total_cidades := (entregas_por_local c3Docs).length
        total_entregas :=
          ((entregas_por_local c3Docs).map (fun kv => kv.2.documentos.length)).sum
        distancia_total_km := pyRound 2 (buildLegs "k" "" c3Dir
          (entregas_por_local c3Docs) 0 (0, 0) "Origem").2.1
        tempo_total_horas := pyRound 2 (buildLegs "k" "" c3Dir
          (entregas_por_local c3Docs) 0 (0, 0) "Origem").2.2.1
        tempo_total_dias := pyRound 1 ((buildLegs "k" "" c3Dir
          (entregas_por_local c3Docs) 0 (0, 0) "Origem").2.2.1 / 8)
        custo_pedagogios_total := pyRound 2 (buildLegs "k" "" c3Dir
          (entregas_por_local c3Docs) 0 (0, 0) "Origem").2.2.2
        api_utilizada := false } }

/-- Witness for the amended C3 theorem at the concrete run `c3Result` with
parameters (1, 1, 0). -/
theorem insurance_from_rounded_days_witness :
    (calculate_optimized_route c3Geo "k" "" c3Dir (fun _ _ => none) c3Docs "Origem"
        = some c3Result)
    ∧ ((1 : ℝ) ≠ 0 ∧ c3Result.resumo.total_entregas ≠ 0
        ∧ c3Result.resumo.distancia_total_km ≠ 0)
    ∧ ((calculate_route_costs c3Result 1 1 0).toOption.map (fun rep =>
          (rep.detalhamento_custos.seguro, rep.detalhamento_custos.alimentacao,
           rep.detalhamento_custos.pernoite))
        = some (pyRound 2 (c3Result.resumo.tempo_total_dias * 50.0),
                pyRound 2 (c3Result.resumo.tempo_total_dias * 80.0),
                pyRound 2 (max 0 (c3Result.resumo.tempo_total_dias - 1) * 150.0)))
    ∧ (∃ t : ℝ, c3Result.resumo.tempo_total_horas = pyRound 2 t
        ∧ c3Result.resumo.tempo_total_dias = pyRound 1 (t / 8)) := by
  have he : c3Result.resumo.total_entregas ≠ 0 := by decide
  have hd : c3Result.resumo.distancia_total_km ≠ 0 := by
    show pyRound 2 (pyRound 2 ((16000 : ℝ) / 1000) + 0) ≠ 0
    have e : pyRound 2 ((16000 : ℝ) / 1000) = 16 := by unfold pyRound rhe; norm_num
    rw [e]
    unfold pyRound rhe
    norm_num
  have main := insurance_from_rounded_days c3Geo "k" "" c3Dir (fun _ _ => none)
    c3Docs "Origem" c3Result rfl 1 1 0 (by norm_num) he hd
  exact ⟨rfl, ⟨by norm_num, he, hd⟩, main.1, main.2⟩
